import Mathlib

/-!
Verification of the droneforge control stack: a shallow embedding of
`DroneControls` (control channels, motor thrusts, keyboard/gamepad input,
scripted timelines) and of the force/velocity parts of `PhysicsEngine`.

Numbers are modelled as rationals (JS numbers, overflow-free in the ranges
involved).  JS objects used as string-keyed tables are modelled as
association lists where an insertion prepends (a later insertion shadows an
earlier one, as JS assignment overwrites).  A JS `if (x)` test on a
string-valued lookup is truthy exactly when the lookup yielded a nonempty
string; on an array-valued lookup it is truthy exactly when the key is
present (arrays are always truthy).
-/

/-- `channels` object of the `DroneControls` constructor. -/
structure Channels where
  roll : ℚ
  pitch : ℚ
  yaw : ℚ
  throttle : ℚ
deriving DecidableEq

/-- `motorThrusts` object of the `DroneControls` constructor. -/
structure MotorThrusts where
  motor1 : ℚ
  motor2 : ℚ
  motor3 : ℚ
  motor4 : ℚ
deriving DecidableEq

/-- The channel/motor part of the `DroneControls` state: the data a script
action callback reads and mutates. -/
structure CtrlState where
  channels : Channels
  motorThrusts : MotorThrusts
deriving DecidableEq

/-- `clampValue(value, min, max) = Math.max(min, Math.min(max, value))`. -/
def clampValue (value mn mx : ℚ) : ℚ :=
  max mn (min mx value)

/-- `moveTowardsCenter(value, min, max, rate)`; the `min`/`max` parameters are
unused by the source body, which compares against `center = 0`. -/
def moveTowardsCenter (value _mn _mx rate : ℚ) : ℚ :=
  let center : ℚ := 0
  if value > center then max center (value - rate) else min center (value + rate)

/-- `moveTowardsZero(value, rate) = Math.max(0, value - rate)`. -/
def moveTowardsZero (value rate : ℚ) : ℚ :=
  max 0 (value - rate)

/-- `controlRate` field (0.4). -/
def controlRate : ℚ := 2/5

/- Key-code string constants used by the source. -/

def keyA : String := "KeyA"

def keyD : String := "KeyD"

def arrowRight : String := "ArrowRight"

def arrowLeft : String := "ArrowLeft"

def arrowDown : String := "ArrowDown"

def arrowUp : String := "ArrowUp"

def keyW : String := "KeyW"

def keyX : String := "KeyX"

def digit1 : String := "Digit1"

def digit2 : String := "Digit2"

def digit3 : String := "Digit3"

def digit4 : String := "Digit4"

def keyS : String := "KeyS"

def keyY : String := "KeyY"

/-- `centerUnusedControls()`: each channel with no relevant key held moves
toward its center; throttle uses `moveTowardsZero` (rates defaulted to 0.005
at the call sites). -/
def centerUnusedControls (ks : String → Bool) (c : CtrlState) : CtrlState :=
  let yaw' := if !ks keyA && !ks keyD then
      moveTowardsCenter c.channels.yaw (-1) 1 (1/200) else c.channels.yaw
  let pitch' := if !ks arrowRight && !ks arrowLeft then
      moveTowardsCenter c.channels.pitch (-1) 1 (1/200) else c.channels.pitch
  let roll' := if !ks arrowDown && !ks arrowUp then
      moveTowardsCenter c.channels.roll (-1) 1 (1/200) else c.channels.roll
  let throttle' := if !ks keyW && !ks keyX then
      moveTowardsZero c.channels.throttle (1/200) else c.channels.throttle
  { c with channels := ⟨roll', pitch', yaw', throttle'⟩ }

/-- `updateKeyboardControls()`: sequential channel and motor updates driven by
the key-state table, followed by `centerUnusedControls()`. -/
def updateKeyboardControls (ks : String → Bool) (c : CtrlState) : CtrlState :=
  let yaw1 := if ks keyA then clampValue (c.channels.yaw - controlRate) (-1) 1 else c.channels.yaw
  let yaw2 := if ks keyD then clampValue (yaw1 + controlRate) (-1) 1 else yaw1
  let pitch1 := if ks arrowRight then clampValue (c.channels.pitch + controlRate) (-1) 1 else c.channels.pitch
  let pitch2 := if ks arrowLeft then clampValue (pitch1 - controlRate) (-1) 1 else pitch1
  let roll1 := if ks arrowDown then clampValue (c.channels.roll - controlRate) (-1) 1 else c.channels.roll
  let roll2 := if ks arrowUp then clampValue (roll1 + controlRate) (-1) 1 else roll1
  let thr1 := if ks keyW then clampValue (c.channels.throttle + controlRate) 0 1 else c.channels.throttle
  let thr2 := if ks keyX then clampValue (thr1 - controlRate) 0 1 else thr1
  let m1 := if ks digit1 then clampValue (c.motorThrusts.motor1 + controlRate) 0 1
            else clampValue (c.motorThrusts.motor1 - controlRate) 0 1
  let m2 := if ks digit2 then clampValue (c.motorThrusts.motor2 + controlRate) 0 1
            else clampValue (c.motorThrusts.motor2 - controlRate) 0 1
  let m3 := if ks digit3 then clampValue (c.motorThrusts.motor3 + controlRate) 0 1
            else clampValue (c.motorThrusts.motor3 - controlRate) 0 1
  let m4 := if ks digit4 then clampValue (c.motorThrusts.motor4 + controlRate) 0 1
            else clampValue (c.motorThrusts.motor4 - controlRate) 0 1
  centerUnusedControls ks ⟨⟨roll2, pitch2, yaw2, thr2⟩, ⟨m1, m2, m3, m4⟩⟩

/-- The four normalized gamepad axis readings (`gamepadAxes[0..3]`). -/
structure GamepadAxes where
  a0 : ℚ
  a1 : ℚ
  a2 : ℚ
  a3 : ℚ
deriving DecidableEq

/-- `updateControlChannels(deltaTime)`: `some axes` models a connected
gamepad, `none` the keyboard branch. -/
def updateControlChannels (pad : Option GamepadAxes) (ks : String → Bool)
    (c : CtrlState) : CtrlState :=
  match pad with
  | some axes =>
      { c with channels :=
          ⟨clampValue axes.a0 (-1) 1, clampValue axes.a1 (-1) 1,
           clampValue axes.a2 (-1) 1, clampValue ((axes.a3 + 1) / 2) 0 1⟩ }
  | none => updateKeyboardControls ks c

/-- Result of invoking a script action callback on the control state:
`ok` for a normal return, `err` when the callback throws (the carried state
is the state after whatever mutation happened before the throw). -/
inductive ActionResult where
  | ok (s : CtrlState)
  | err (s : CtrlState)

/-- The control state after the callback ran, successful or not. -/
def ActionResult.state : ActionResult → CtrlState
  | .ok s => s
  | .err s => s

/-- A validated script action: `{ time, action }` with a numeric `time` and a
callable `action`.  The callback receives the owning control/motor state (the
part of `this` the repository's callbacks touch). -/
structure ScriptAction where
  time : ℚ
  run : CtrlState → ActionResult

/-- An entry of a raw `scriptActions` argument before validation: `time` is
`none` when `typeof action.time !== 'number'`, `action` is `none` when
`typeof action.action !== 'function'`. -/
structure RawAction where
  time : Option ℚ
  action : Option (CtrlState → ActionResult)

/-- An element of `activeScripts`: script id, private copy of the action
list, `startTime`, and the monotone cursor `nextActionIndex`. -/
structure ScriptInstance where
  id : String
  actions : List ScriptAction
  startTime : ℚ
  nextActionIndex : ℕ

/-- JS object lookup on a string-keyed table modelled as an association
list; insertion prepends, so the first hit is the latest assignment. -/
def assocLookup {α : Type} (k : String) : List (String × α) → Option α
  | [] => none
  | (k', v) :: rest => if k = k' then some v else assocLookup k rest

/-- The whole `DroneControls` state. -/
structure DroneState where
  core : CtrlState
  keyStates : String → Bool
  scripts : List (String × List ScriptAction)
  scriptBindings : List (String × String)
  activeScripts : List ScriptInstance
  log : List String

/-- The validation loop of `registerScript`: `none` as soon as some entry
lacks a numeric `time` or a function `action`, otherwise the validated
action list. -/
def validateActions : List RawAction → Option (List ScriptAction)
  | [] => some []
  | r :: rest =>
    match r.time, r.action with
    | some t, some f => (validateActions rest).map (fun l => ⟨t, f⟩ :: l)
    | _, _ => none

def msgActionsNotArray : String := "Script actions must be an array."

def msgBadAction : String := "Each script action must have a numeric time and a function action."

def msgUnknownScript : String := "Cannot bind key to unknown script."

def msgScriptNotFound : String := "Script not found."

/-- `registerScript(scriptId, scriptActions)`; the argument is `none` when
`scriptActions` is not an array.  On a validation failure the error is
logged and the state is otherwise untouched. -/
def registerScript (scriptId : String) (raw : Option (List RawAction))
    (s : DroneState) : DroneState :=
  match raw with
  | none => { s with log := msgActionsNotArray :: s.log }
  | some l =>
    match validateActions l with
    | none => { s with log := msgBadAction :: s.log }
    | some acts => { s with scripts := (scriptId, acts) :: s.scripts }

/-- `executeScript(scriptId)` at wall-clock time `now`: pushes a fresh
instance (cloned action list, cursor 0) when the id is registered, else
logs a warning. -/
def executeScript (now : ℚ) (scriptId : String) (s : DroneState) : DroneState :=
  match assocLookup scriptId s.scripts with
  | some script =>
      { s with activeScripts := s.activeScripts ++ [⟨scriptId, script, now, 0⟩] }
  | none => { s with log := msgScriptNotFound :: s.log }

/-- `bindKeyToScript(keyCode, scriptId)`: `!this.scripts[scriptId]` is falsy
exactly when the id is absent (a stored action array is always truthy). -/
def bindKeyToScript (keyCode scriptId : String) (s : DroneState) : DroneState :=
  match assocLookup scriptId s.scripts with
  | some _ => { s with scriptBindings := (keyCode, scriptId) :: s.scriptBindings }
  | none => { s with log := msgUnknownScript :: s.log }

/-- `onKeyDown`: `if (this.scriptBindings[key])` is truthy only for a bound
nonempty script id; otherwise the key state is recorded. -/
def onKeyDown (now : ℚ) (key : String) (s : DroneState) : DroneState :=
  match assocLookup key s.scriptBindings with
  | some scriptId =>
      if scriptId = "" then
        { s with keyStates := fun k => if k = key then true else s.keyStates k }
      else executeScript now scriptId s
  | none => { s with keyStates := fun k => if k = key then true else s.keyStates k }

/-- `onKeyUp`: clears the key state only when the key is not (truthily)
bound to a script. -/
def onKeyUp (key : String) (s : DroneState) : DroneState :=
  match assocLookup key s.scriptBindings with
  | some scriptId =>
      if scriptId = "" then
        { s with keyStates := fun k => if k = key then false else s.keyStates k }
      else s
  | none => { s with keyStates := fun k => if k = key then false else s.keyStates k }

/-- The `console.error` entry produced when action `idx` (0-based; the JS
message prints `idx+1`) of script `sid` throws. -/
def actionErrMsg (sid : String) (idx : ℕ) : String :=
  "Error executing action " ++ Nat.repr (idx + 1) ++ " of script " ++ sid

/-- Outcome of the due-action `while` loop of `updateActiveScripts` for one
instance: final control state, final cursor, final error log, and the
0-based indices of the actions that were executed, in execution order. -/
structure RunResult where
  core : CtrlState
  idx : ℕ
  log : List String
  executed : List ℕ

/-- The `while` loop of `updateActiveScripts`: starting at cursor `idx`
(`acts` is the action list from that cursor on), execute actions while the
next one is due (`elapsedTime >= action.time`); a throwing callback is
caught, logged, and the cursor still advances. -/
def runDueActions (sid : String) (elapsed : ℚ) :
    List ScriptAction → ℕ → CtrlState → List String → RunResult
  | [], idx, core, log => ⟨core, idx, log, []⟩
  | a :: rest, idx, core, log =>
    if a.time ≤ elapsed then
      match a.run core with
      | .ok c2 =>
        let r := runDueActions sid elapsed rest (idx + 1) c2 log
        ⟨r.core, r.idx, r.log, idx :: r.executed⟩
      | .err c2 =>
        let r := runDueActions sid elapsed rest (idx + 1) c2 (actionErrMsg sid idx :: log)
        ⟨r.core, r.idx, r.log, idx :: r.executed⟩
    else ⟨core, idx, log, []⟩

/-- Length of the maximal prefix of due actions: how far the `while` loop of
`updateActiveScripts` runs from the cursor for a given elapsed time. -/
def duePrefixLen (elapsed : ℚ) : List ScriptAction → ℕ
  | [] => 0
  | a :: rest => if a.time ≤ elapsed then duePrefixLen elapsed rest + 1 else 0

/-- One instance's turn inside `updateActiveScripts`: run the due actions,
keep the instance only while `nextActionIndex < actions.length`.  Also
returns the `(script id, action index)` execution trace. -/
def processInstance (now : ℚ) (core : CtrlState) (log : List String)
    (inst : ScriptInstance) :
    CtrlState × List String × Option ScriptInstance × List (String × ℕ) :=
  let elapsed := now - inst.startTime
  let r := runDueActions inst.id elapsed (inst.actions.drop inst.nextActionIndex)
      inst.nextActionIndex core log
  (r.core, r.log,
   if r.idx < inst.actions.length then some { inst with nextActionIndex := r.idx } else none,
   r.executed.map (fun i => (inst.id, i)))

/-- The `filter` pass of `updateActiveScripts` over the active list, in list
order, threading the control state and log. -/
def updateActiveScriptsAux (now : ℚ) :
    List ScriptInstance → CtrlState → List String →
    CtrlState × List String × List ScriptInstance × List (String × ℕ)
  | [], core, log => (core, log, [], [])
  | inst :: rest, core, log =>
    let p := processInstance now core log inst
    let r := updateActiveScriptsAux now rest p.1 p.2.1
    (r.1, r.2.1, p.2.2.1.toList ++ r.2.2.1, p.2.2.2 ++ r.2.2.2)

/-- `updateActiveScripts(deltaTime)` at wall-clock time `now`; the second
component is the execution trace (which actions of which instances ran). -/
def updateActiveScripts (now : ℚ) (s : DroneState) :
    DroneState × List (String × ℕ) :=
  let r := updateActiveScriptsAux now s.activeScripts s.core s.log
  ({ s with core := r.1, log := r.2.1, activeScripts := r.2.2.1 }, r.2.2.2)

/-- `update(deltaTime)` at wall-clock time `now` with gamepad reading `pad`
(`none` = disconnected).  `deltaTime` is accepted and ignored, as in the
source (`updateActiveScripts` uses `performance.now()`). -/
def update (now _deltaTime : ℚ) (pad : Option GamepadAxes) (s : DroneState) :
    DroneState :=
  let s1 := { s with core := updateControlChannels pad s.keyStates s.core }
  (updateActiveScripts now s1).1

def hoverId : String := "hover"

def yawSpinId : String := "yawSpin"

/-- The four actions of the default `hover` script (times 0, 1000, 1000,
1000; throttle to mid-point, then roll/pitch/yaw centered). -/
def hoverRaw : List RawAction :=
  [⟨some 0, some fun c => .ok { c with channels := { c.channels with throttle := 1/2 } }⟩,
   ⟨some 1000, some fun c => .ok { c with channels := { c.channels with roll := 0 } }⟩,
   ⟨some 1000, some fun c => .ok { c with channels := { c.channels with pitch := 0 } }⟩,
   ⟨some 1000, some fun c => .ok { c with channels := { c.channels with yaw := 0 } }⟩]

/-- The two actions of the default `yawSpin` script. -/
def yawSpinRaw : List RawAction :=
  [⟨some 0, some fun c => .ok { c with channels := { c.channels with yaw := 1/5 } }⟩,
   ⟨some 5000, some fun c => .ok { c with channels := { c.channels with yaw := 0 } }⟩]

/-- `registerDefaultScripts()`: register `hover` (bound to KeyS) and
`yawSpin` (bound to KeyY). -/
def registerDefaultScripts (s : DroneState) : DroneState :=
  bindKeyToScript keyY yawSpinId
    (registerScript yawSpinId (some yawSpinRaw)
      (bindKeyToScript keyS hoverId
        (registerScript hoverId (some hoverRaw) s)))

/-- The `DroneControls` constructor: default channel/motor values, empty
tables, then `registerDefaultScripts()`. -/
def mkDroneControls : DroneState :=
  registerDefaultScripts
    { core := ⟨⟨0, 0, 0, 1/2⟩, ⟨49/80, 49/80, 49/80, 49/80⟩⟩,
      keyStates := fun _ => false,
      scripts := [],
      scriptBindings := [],
      activeScripts := [],
      log := [] }

/-- The record returned by `getControlInputs()`. -/
structure ControlInputsSnapshot where
  roll : ℚ
  pitch : ℚ
  yaw : ℚ
  throttle : ℚ
  motorThrusts : MotorThrusts
deriving DecidableEq

/-- `getControlInputs()`. -/
def getControlInputs (s : DroneState) : ControlInputsSnapshot :=
  ⟨s.core.channels.roll, s.core.channels.pitch, s.core.channels.yaw,
   s.core.channels.throttle,
   ⟨s.core.motorThrusts.motor1, s.core.motorThrusts.motor2,
    s.core.motorThrusts.motor3, s.core.motorThrusts.motor4⟩⟩

/-- One externally driven event: a keydown, a keyup, or a frame update (with
the gamepad reading at that frame). -/
inductive InputEvent where
  | keyDown (now : ℚ) (key : String)
  | keyUp (key : String)
  | frame (now deltaTime : ℚ) (pad : Option GamepadAxes)

/-- Dispatch one event to the corresponding handler. -/
def stepEvent : InputEvent → DroneState → DroneState
  | .keyDown now key, s => onKeyDown now key s
  | .keyUp key, s => onKeyUp key s
  | .frame now dt pad, s => update now dt pad s

/-- Run a sequence of events, oldest first. -/
def runEvents : List InputEvent → DroneState → DroneState
  | [], s => s
  | e :: rest, s => runEvents rest (stepEvent e s)

/-- The documented ranges: roll/pitch/yaw in [-1,1], throttle and the four
motor thrusts in [0,1]. -/
def inBounds (c : CtrlState) : Prop :=
  -1 ≤ c.channels.roll ∧ c.channels.roll ≤ 1 ∧
  -1 ≤ c.channels.pitch ∧ c.channels.pitch ≤ 1 ∧
  -1 ≤ c.channels.yaw ∧ c.channels.yaw ≤ 1 ∧
  0 ≤ c.channels.throttle ∧ c.channels.throttle ≤ 1 ∧
  0 ≤ c.motorThrusts.motor1 ∧ c.motorThrusts.motor1 ≤ 1 ∧
  0 ≤ c.motorThrusts.motor2 ∧ c.motorThrusts.motor2 ≤ 1 ∧
  0 ≤ c.motorThrusts.motor3 ∧ c.motorThrusts.motor3 ≤ 1 ∧
  0 ≤ c.motorThrusts.motor4 ∧ c.motorThrusts.motor4 ≤ 1

instance (c : CtrlState) : Decidable (inBounds c) := by
  unfold inBounds; infer_instance

/-- A callback that maps in-range control states to in-range control states
(whether it returns or throws). -/
def preservesBounds (f : CtrlState → ActionResult) : Prop :=
  ∀ c, inBounds c → inBounds (f c).state

/-- Every callback reachable by the script engine (registered scripts and
already-active instances) preserves the documented ranges. -/
def GoodScripts (s : DroneState) : Prop :=
  (∀ p ∈ s.scripts, ∀ a ∈ p.2, preservesBounds a.run) ∧
  (∀ inst ∈ s.activeScripts, ∀ a ∈ inst.actions, preservesBounds a.run)

/-- A three.js / Ammo.js 3-vector. -/
structure Vec3 where
  x : ℚ
  y : ℚ
  z : ℚ
deriving DecidableEq

/-- Componentwise sum (`THREE.Vector3.add`). -/
def Vec3.add (a b : Vec3) : Vec3 :=
  ⟨a.x + b.x, a.y + b.y, a.z + b.z⟩

/-- Scaling by a scalar. -/
def Vec3.smul (r : ℚ) (v : Vec3) : Vec3 :=
  ⟨r * v.x, r * v.y, r * v.z⟩

/-- Cross product (torque of a force about the origin of application). -/
def Vec3.cross (a b : Vec3) : Vec3 :=
  ⟨a.y * b.z - a.z * b.y, a.z * b.x - a.x * b.z, a.x * b.y - a.y * b.x⟩

/-- Squared euclidean length; `velocity.length()` is its square root. -/
def Vec3.normSq (v : Vec3) : ℚ :=
  v.x * v.x + v.y * v.y + v.z * v.z

/-- A three.js quaternion `(x, y, z, w)`. -/
structure Quat where
  x : ℚ
  y : ℚ
  z : ℚ
  w : ℚ
deriving DecidableEq

/-- The identity orientation. -/
def qIdentity : Quat := ⟨0, 0, 0, 1⟩

/-- `THREE.Vector3.applyQuaternion`: `t = 2 (q.xyz × v)`,
`v' = v + q.w t + q.xyz × t`. -/
def applyQuaternion (q : Quat) (v : Vec3) : Vec3 :=
  let tx := 2 * (q.y * v.z - q.z * v.y)
  let ty := 2 * (q.z * v.x - q.x * v.z)
  let tz := 2 * (q.x * v.y - q.y * v.x)
  ⟨v.x + q.w * tx + q.y * tz - q.z * ty,
   v.y + q.w * ty + q.z * tx - q.x * tz,
   v.z + q.w * tz + q.x * ty - q.y * tx⟩

/-- The force/torque accumulator of a rigid body during one tick. -/
structure ForceAccum where
  force : Vec3
  torque : Vec3
deriving DecidableEq

/-- `btRigidBody.applyCentralForce`. -/
def applyCentralForce (b : ForceAccum) (f : Vec3) : ForceAccum :=
  { b with force := b.force.add f }

/-- `btRigidBody.applyForce(force, relPos)`: adds the force and the moment
`relPos × force`.  The source passes the motor's world position as `relPos`. -/
def applyForce (b : ForceAccum) (f relPos : Vec3) : ForceAccum :=
  { force := b.force.add f, torque := b.torque.add (relPos.cross f) }

/-- `btRigidBody.applyTorque`. -/
def applyTorque (b : ForceAccum) (t : Vec3) : ForceAccum :=
  { b with torque := b.torque.add t }

/-- No accumulated force or torque. -/
def emptyAccum : ForceAccum := ⟨⟨0, 0, 0⟩, ⟨0, 0, 0⟩⟩

/-- The `settings` fields of `PhysicsEngine` that the control-force path and
the velocity clamp read. -/
structure FlightSettings where
  maxThrust : ℚ
  torqueStrength : ℚ
  maxVelocity : ℚ
  maxAngularVelocity : ℚ
  useIndividualMotors : Bool
  motorPositions : Vec3 × Vec3 × Vec3 × Vec3

/-- The constructor's `settings` values. -/
def droneSettings : FlightSettings :=
  { maxThrust := 1,
    torqueStrength := 1/2,
    maxVelocity := 50,
    maxAngularVelocity := 10,
    useIndividualMotors := false,
    motorPositions := (⟨1, 0, 1⟩, ⟨-1, 0, 1⟩, ⟨-1, 0, -1⟩, ⟨1, 0, -1⟩) }

/-- One motor of the individual-motor loop of `applyControlsToDrone`: thrust
along the rotated body-up applied at the motor's world position. -/
def applyMotor (st : FlightSettings) (q : Quat) (origin : Vec3)
    (motorThrust : ℚ) (motorPositionLocal : Vec3) (b : ForceAccum) : ForceAccum :=
  let thrustWorld := applyQuaternion q ⟨0, motorThrust * st.maxThrust, 0⟩
  let motorPositionWorld := (applyQuaternion q motorPositionLocal).add origin
  applyForce b thrustWorld motorPositionWorld

/-- `applyControlsToDrone()` of the settings-based `PhysicsEngine` (the
variant with the `useIndividualMotors` flag): the forces and torques it
accumulates on the drone body, given the control snapshot, the body
orientation `q` and origin. -/
def applyControlsToDrone (st : FlightSettings) (controls : CtrlState)
    (q : Quat) (origin : Vec3) (b : ForceAccum) : ForceAccum :=
  if st.useIndividualMotors then
    let b1 := applyMotor st q origin controls.motorThrusts.motor1 st.motorPositions.1 b
    let b2 := applyMotor st q origin controls.motorThrusts.motor2 st.motorPositions.2.1 b1
    let b3 := applyMotor st q origin controls.motorThrusts.motor3 st.motorPositions.2.2.1 b2
    applyMotor st q origin controls.motorThrusts.motor4 st.motorPositions.2.2.2 b3
  else
    let thrustForce := controls.channels.throttle * st.maxThrust
    let thrustWorld := applyQuaternion q ⟨0, thrustForce, 0⟩
    let torqueLocal : Vec3 :=
      ⟨st.torqueStrength * controls.channels.roll,
       st.torqueStrength * (-controls.channels.yaw),
       st.torqueStrength * controls.channels.pitch⟩
    let torqueWorld := applyQuaternion q torqueLocal
    applyTorque (applyCentralForce b thrustWorld) torqueWorld

/-- The post-step velocity clamp of `updateMeshPositions`, for one velocity
vector: `len` is the value returned by `velocity.length()` and `cap` the
configured maximum; above the cap every component is scaled by `cap/len`,
otherwise the velocity is not written back. -/
def limitVelocity (v : Vec3) (len cap : ℚ) : Vec3 :=
  if len > cap then
    let scale := cap / len
    ⟨v.x * scale, v.y * scale, v.z * scale⟩
  else v

/-! ## Claim theorems -/

unseal Rat.mul Rat.inv Rat.add Rat.sub in
/-- C9: immediately after construction, before any update or input,
`getControlInputs` returns roll = pitch = yaw = 0, throttle = 0.5 (= 1/2)
and all four motor thrusts = 0.6125 (= 49/80). -/
theorem getControlInputs_initial :
    getControlInputs mkDroneControls =
      ⟨0, 0, 0, 1/2, ⟨49/80, 49/80, 49/80, 49/80⟩⟩ := by
  decide

/-- C8: with the gamepad connected, an update writes the four normalized
axis values directly into roll/pitch/yaw (clamped to [-1,1]) and the
throttle axis remapped by `t ↦ (t+1)/2` (clamped to [0,1]); the motor
thrusts are untouched and the written channels do not depend on the
previous channel values (no rate limiting). -/
theorem updateControlChannels_gamepad (axes : GamepadAxes) (ks : String → Bool)
    (c : CtrlState) :
    (updateControlChannels (some axes) ks c).channels.roll = clampValue axes.a0 (-1) 1 ∧
    (updateControlChannels (some axes) ks c).channels.pitch = clampValue axes.a1 (-1) 1 ∧
    (updateControlChannels (some axes) ks c).channels.yaw = clampValue axes.a2 (-1) 1 ∧
    (updateControlChannels (some axes) ks c).channels.throttle = clampValue ((axes.a3 + 1) / 2) 0 1 ∧
    (updateControlChannels (some axes) ks c).motorThrusts = c.motorThrusts ∧
    ∀ c' : CtrlState,
      (updateControlChannels (some axes) ks c).channels = (updateControlChannels (some axes) ks c').channels :=
  ⟨rfl, rfl, rfl, rfl, rfl, fun _ => rfl⟩

/-- C4: the post-step velocity clamp.  `len` is the float the code reads
back as `velocity.length()` (so `len ≥ 0` and `len² = ‖v‖²`), `cap` the
configured maximum (`maxVelocity` for linear, `maxAngularVelocity` for
angular velocity).  Above the cap the velocity is rescaled to exactly the
cap magnitude with the direction preserved (`len • v' = cap • v`, a positive
rescaling); at or below the cap it is left unmodified. -/
theorem limitVelocity_spec (v : Vec3) (len cap : ℚ)
    (_hlen : 0 ≤ len) (hsq : len * len = v.normSq) (hcap : 0 ≤ cap) :
    (cap < len →
       (limitVelocity v len cap).normSq = cap * cap ∧
       Vec3.smul len (limitVelocity v len cap) = Vec3.smul cap v) ∧
    (len ≤ cap → limitVelocity v len cap = v) := by
  constructor
  · intro h
    have hl0 : 0 < len := lt_of_le_of_lt hcap h
    have hne : len ≠ 0 := ne_of_gt hl0
    unfold limitVelocity
    rw [if_pos h]
    unfold Vec3.normSq at hsq ⊢
    constructor
    · field_simp
      nlinarith [hsq]
    · unfold Vec3.smul
      simp only [Vec3.mk.injEq]
      refine ⟨?_, ?_, ?_⟩ <;> field_simp <;> ring
  · intro h
    unfold limitVelocity
    rw [if_neg (not_lt.mpr h)]

unseal Rat.mul Rat.inv Rat.add Rat.sub in
/-- Witness for C4: the spec's example, a velocity of magnitude 80 under a
cap of 50 is rescaled to exactly magnitude 50 in the same direction. -/
theorem limitVelocity_spec_witness :
    (0 : ℚ) ≤ 80 ∧ (80 : ℚ) * 80 = Vec3.normSq ⟨80, 0, 0⟩ ∧ (0 : ℚ) ≤ 50 ∧
    (50 : ℚ) < 80 ∧
    (Vec3.normSq (limitVelocity ⟨80, 0, 0⟩ 80 50) = 50 * 50 ∧
     Vec3.smul 80 (limitVelocity ⟨80, 0, 0⟩ 80 50) = Vec3.smul 50 ⟨80, 0, 0⟩) :=
  ⟨by decide, by decide, by decide, by decide,
   (limitVelocity_spec ⟨80, 0, 0⟩ 80 50 (by decide) (by decide) (by decide)).1 (by decide)⟩

/-- C3, corrected: at identity orientation, unified mode with throttle = 1
and `maxThrust = M` applies a central thrust force of exactly `(0, M, 0)`
(magnitude `M` along world-up); per-motor mode with all four motor thrusts
0.6125 (= 49/80) and the same per-motor `maxThrust M` applies a net force of
`(0, 2.45·M, 0)` — four times `0.6125·M`, not the unified-mode force `M`. -/
theorem applyControlsToDrone_net_force (M : ℚ) (ch : Channels) (mt : MotorThrusts)
    (thr : ℚ) (origin : Vec3) :
    (applyControlsToDrone { droneSettings with maxThrust := M }
        ⟨⟨ch.roll, ch.pitch, ch.yaw, 1⟩, mt⟩ qIdentity origin emptyAccum).force = ⟨0, M, 0⟩ ∧
    (applyControlsToDrone { droneSettings with maxThrust := M, useIndividualMotors := true }
        ⟨⟨ch.roll, ch.pitch, ch.yaw, thr⟩, ⟨49/80, 49/80, 49/80, 49/80⟩⟩
        qIdentity origin emptyAccum).force = ⟨0, (49/20) * M, 0⟩ := by
  constructor <;>
    · simp only [applyControlsToDrone, droneSettings, applyMotor, applyForce,
        applyCentralForce, applyTorque, applyQuaternion, qIdentity, emptyAccum,
        Vec3.add, Vec3.cross, Bool.false_eq_true, if_false, if_true, Vec3.mk.injEq]
      norm_num
      try ring

unseal Rat.mul Rat.inv Rat.add Rat.sub in
/-- Counterexample for C3 as stated: with the constructor's settings
(`maxThrust = 1` in both modes), at zero tilt, per-motor mode with all
four thrusts 0.6125 and unified mode with throttle = 1 do NOT produce the
same net force: (0, 2.45, 0) versus (0, 1, 0). -/
theorem applyControlsToDrone_net_force_cex :
    (applyControlsToDrone { droneSettings with useIndividualMotors := true }
        ⟨⟨0, 0, 0, 1⟩, ⟨49/80, 49/80, 49/80, 49/80⟩⟩ qIdentity ⟨0, 0, 0⟩ emptyAccum).force ≠
    (applyControlsToDrone droneSettings
        ⟨⟨0, 0, 0, 1⟩, ⟨49/80, 49/80, 49/80, 49/80⟩⟩ qIdentity ⟨0, 0, 0⟩ emptyAccum).force := by
  decide

/-- An action list with an entry lacking a numeric `time` or a callable
`action` fails validation. -/
lemma validateActions_eq_none {l : List RawAction}
    (h : ∃ r ∈ l, r.time.isNone = true ∨ r.action.isNone = true) :
    validateActions l = none := by
  induction l with
  | nil => simp at h
  | cons r rest ih =>
    obtain ⟨r', hmem, hbad⟩ := h
    rcases List.mem_cons.mp hmem with rfl | hrest
    · cases ht : r'.time with
      | none => simp [validateActions, ht]
      | some t =>
        cases ha : r'.action with
        | none => simp [validateActions, ht, ha]
        | some f => rw [ht, ha] at hbad; simp at hbad
    · have hrec := ih ⟨r', hrest, hbad⟩
      cases ht : r.time with
      | none => simp [validateActions, ht]
      | some t =>
        cases ha : r.action with
        | none => simp [validateActions, ht, ha]
        | some f => simp [validateActions, ht, ha, hrec]

/-- C6: `registerScript` rejects a non-array action argument and any action
list containing an entry without a numeric `time` or a function `action`;
in both cases the whole state is unchanged except for a reported (logged)
error — in particular the script table is untouched.  `bindKeyToScript`
rejects an unregistered script id the same way, leaving the binding table
unchanged. -/
theorem registerScript_rejects (s : DroneState) (scriptId keyCode : String) :
    (registerScript scriptId none s = { s with log := msgActionsNotArray :: s.log }) ∧
    (∀ l : List RawAction, (∃ r ∈ l, r.time.isNone = true ∨ r.action.isNone = true) →
        registerScript scriptId (some l) s = { s with log := msgBadAction :: s.log }) ∧
    ((assocLookup scriptId s.scripts).isNone = true →
        bindKeyToScript keyCode scriptId s = { s with log := msgUnknownScript :: s.log }) := by
  refine ⟨rfl, ?_, ?_⟩
  · intro l hl
    unfold registerScript
    dsimp only
    rw [validateActions_eq_none hl]
  · intro hno
    unfold bindKeyToScript
    rw [Option.isNone_iff_eq_none.mp hno]

def badId : String := "badScript"

def keyB : String := "KeyB"

unseal Rat.mul Rat.inv Rat.add Rat.sub in
/-- Witness for C6 at concrete inputs: on the freshly constructed state,
registering `badScript` with a non-array argument, or with an entry missing
both fields, only logs; binding KeyB to the unregistered `badScript` only
logs. -/
theorem registerScript_rejects_witness :
    (∃ r ∈ [(⟨none, none⟩ : RawAction)], r.time.isNone = true ∨ r.action.isNone = true) ∧
    (assocLookup badId mkDroneControls.scripts).isNone = true ∧
    (registerScript badId none mkDroneControls
       = { mkDroneControls with log := msgActionsNotArray :: mkDroneControls.log } ∧
     registerScript badId (some [⟨none, none⟩]) mkDroneControls
       = { mkDroneControls with log := msgBadAction :: mkDroneControls.log } ∧
     bindKeyToScript keyB badId mkDroneControls
       = { mkDroneControls with log := msgUnknownScript :: mkDroneControls.log }) := by
  refine ⟨by decide, by decide, ?_, ?_, ?_⟩
  · exact (registerScript_rejects mkDroneControls badId keyB).1
  · exact (registerScript_rejects mkDroneControls badId keyB).2.1 [⟨none, none⟩] (by decide)
  · exact (registerScript_rejects mkDroneControls badId keyB).2.2 (by decide)

/-- C10, corrected: for every key bound to a NONEMPTY script id (JS
truthiness: `if (this.scriptBindings[key])`), `onKeyDown` never writes the
key's pressed state nor touches any channel or motor thrust (it only
starts a script instance or logs), and `onKeyUp` is a complete no-op. -/
theorem boundKey_no_keystate (s : DroneState) (key scriptId : String) (now : ℚ)
    (hb : assocLookup key s.scriptBindings = some scriptId) (hne : scriptId ≠ "") :
    (onKeyDown now key s).keyStates = s.keyStates ∧
    (onKeyDown now key s).core = s.core ∧
    onKeyUp key s = s := by
  unfold onKeyDown onKeyUp
  rw [hb]
  dsimp only
  rw [if_neg hne, if_neg hne]
  unfold executeScript
  cases h : assocLookup scriptId s.scripts <;> simp [h]

unseal Rat.mul Rat.inv Rat.add Rat.sub in
/-- Witness for C10: KeyS is bound to the nonempty id `hover` on the fresh
state, so its handlers leave the key table and the control state alone. -/
theorem boundKey_no_keystate_witness :
    assocLookup keyS mkDroneControls.scriptBindings = some hoverId ∧
    hoverId ≠ "" ∧
    ((onKeyDown 0 keyS mkDroneControls).keyStates = mkDroneControls.keyStates ∧
     (onKeyDown 0 keyS mkDroneControls).core = mkDroneControls.core ∧
     onKeyUp keyS mkDroneControls = mkDroneControls) :=
  ⟨by decide, by decide,
   boundKey_no_keystate mkDroneControls keyS hoverId 0 (by decide) (by decide)⟩

def emptyScriptId : String := ""

/-- A state in which KeyW is bound to a script registered under the empty
id (`registerScript("")` succeeds and `bindKeyToScript("KeyW", "")` binds,
since the stored action array is truthy). -/
def boundEmptyKeyState : DroneState :=
  bindKeyToScript keyW emptyScriptId
    (registerScript emptyScriptId (some []) mkDroneControls)

unseal Rat.mul Rat.inv Rat.add Rat.sub in
/-- Counterexample for C10 as stated: KeyW is bound to a script
(`scriptBindings["KeyW"]` is present), yet `onKeyDown` writes its pressed
state (the empty id is falsy in `if (this.scriptBindings[key])`), and a
subsequent no-gamepad update then moves the throttle through the keyboard
path (0.5 to 0.9). -/
theorem boundKey_no_keystate_cex :
    (assocLookup keyW boundEmptyKeyState.scriptBindings).isSome = true ∧
    boundEmptyKeyState.keyStates keyW = false ∧
    (onKeyDown 0 keyW boundEmptyKeyState).keyStates keyW = true ∧
    (update 0 0 none (onKeyDown 0 keyW boundEmptyKeyState)).core.channels.throttle = 9/10 := by
  decide

/-- The due-action loop always advances the cursor by exactly the length of
the maximal due prefix (a quantity depending only on the recorded offsets
and the elapsed time, not on what the callbacks do or whether they throw),
and executes exactly the actions of that prefix, in registration order. -/
lemma runDueActions_spec (sid : String) (elapsed : ℚ) :
    ∀ (acts : List ScriptAction) (idx : ℕ) (core : CtrlState) (log : List String),
      (runDueActions sid elapsed acts idx core log).idx = idx + duePrefixLen elapsed acts ∧
      (runDueActions sid elapsed acts idx core log).executed
        = List.range' idx (duePrefixLen elapsed acts) := by
  intro acts
  induction acts with
  | nil => intro idx core log; simp [runDueActions, duePrefixLen]
  | cons a rest ih =>
    intro idx core log
    unfold runDueActions duePrefixLen
    by_cases h : a.time ≤ elapsed
    · rw [if_pos h, if_pos h]
      cases hr : a.run core with
      | ok c2 =>
        refine ⟨?_, ?_⟩
        · show (runDueActions sid elapsed rest (idx + 1) c2 log).idx = _
          rw [(ih (idx + 1) c2 log).1]; omega
        · show idx :: (runDueActions sid elapsed rest (idx + 1) c2 log).executed = _
          rw [(ih (idx + 1) c2 log).2, List.range'_succ idx (duePrefixLen elapsed rest) 1]
      | err c2 =>
        refine ⟨?_, ?_⟩
        · show (runDueActions sid elapsed rest (idx + 1) c2 (actionErrMsg sid idx :: log)).idx = _
          rw [(ih (idx + 1) c2 (actionErrMsg sid idx :: log)).1]; omega
        · show idx :: (runDueActions sid elapsed rest (idx + 1) c2 (actionErrMsg sid idx :: log)).executed = _
          rw [(ih (idx + 1) c2 (actionErrMsg sid idx :: log)).2,
            List.range'_succ idx (duePrefixLen elapsed rest) 1]
    · rw [if_neg h, if_neg h]
      exact ⟨by simp, by simp⟩

def boomId : String := "boom"

/-- A two-action list whose first callback throws (after a partial
mutation) and whose second succeeds; both are due at time 0. -/
def throwingActs : List ScriptAction :=
  [⟨0, fun c => .err { c with channels := { c.channels with roll := 1/4 } }⟩,
   ⟨0, fun c => .ok { c with channels := { c.channels with pitch := 1/3 } }⟩]

/-- The fresh state with one active instance of the throwing script. -/
def throwingState : DroneState :=
  { mkDroneControls with activeScripts := [⟨boomId, throwingActs, 0, 0⟩] }

unseal Rat.mul Rat.inv Rat.add Rat.sub in
/-- C7: a throwing mutation callback is caught, not propagated — the whole
update is a total function on states: the cursor advance depends only on
the recorded offsets (first conjunct, so a failed action is skipped exactly
like a successful one and is never retried), and on the concrete throwing
instance the update executes action 0 (which throws), logs the error with
the script/action identity, still executes action 1, and completes and
removes the instance. -/
theorem scriptError_caught_and_advances :
    (∀ (sid : String) (elapsed : ℚ) (acts : List ScriptAction) (idx : ℕ)
        (core : CtrlState) (log : List String),
      (runDueActions sid elapsed acts idx core log).idx = idx + duePrefixLen elapsed acts) ∧
    ((updateActiveScripts 5 throwingState).2 = [(boomId, 0), (boomId, 1)] ∧
     (updateActiveScripts 5 throwingState).1.core.channels.roll = 1/4 ∧
     (updateActiveScripts 5 throwingState).1.core.channels.pitch = 1/3 ∧
     (updateActiveScripts 5 throwingState).1.log = [actionErrMsg boomId 0] ∧
     (updateActiveScripts 5 throwingState).1.activeScripts.length = 0) := by
  constructor
  · intro sid elapsed acts idx core log
    exact (runDueActions_spec sid elapsed acts idx core log).1
  · decide

/-- For a state with exactly one active instance, one `updateActiveScripts`
executes precisely the contiguous block of due actions starting at the
cursor (trace `[cursor, …, cursor + dueLen)`), and keeps the instance, with
the cursor advanced by that block's length, iff actions remain. -/
lemma updateActiveScripts_single (now : ℚ) (s : DroneState) (inst : ScriptInstance)
    (h : s.activeScripts = [inst]) :
    (updateActiveScripts now s).2
      = (List.range' inst.nextActionIndex
          (duePrefixLen (now - inst.startTime) (inst.actions.drop inst.nextActionIndex))).map
          (fun i => (inst.id, i)) ∧
    (updateActiveScripts now s).1.activeScripts
      = (if inst.nextActionIndex
            + duePrefixLen (now - inst.startTime) (inst.actions.drop inst.nextActionIndex)
            < inst.actions.length
         then [{ inst with nextActionIndex := inst.nextActionIndex
                  + duePrefixLen (now - inst.startTime) (inst.actions.drop inst.nextActionIndex) }]
         else []) := by
  unfold updateActiveScripts updateActiveScriptsAux processInstance
  rw [h]
  dsimp only
  rw [(runDueActions_spec inst.id (now - inst.startTime) (inst.actions.drop inst.nextActionIndex)
        inst.nextActionIndex s.core s.log).1,
      (runDueActions_spec inst.id (now - inst.startTime) (inst.actions.drop inst.nextActionIndex)
        inst.nextActionIndex s.core s.log).2]
  constructor
  · simp [updateActiveScriptsAux]
  · split_ifs with hlt <;> simp [updateActiveScriptsAux, hlt]

/-- With no active instance nothing executes. -/
lemma updateActiveScripts_empty (now : ℚ) (s : DroneState)
    (h : s.activeScripts = []) : (updateActiveScripts now s).2 = [] := by
  unfold updateActiveScripts updateActiveScriptsAux
  rw [h]

def keyT : String := "KeyT"

def exScriptId : String := "twoStep"

/-- A script with actions [(0, a0), (1000, a1)] registered under
`twoStep`, bound to KeyT, and triggered by a KeyT press at time 0 —
the spec's worked example. -/
def exState (f0 f1 : CtrlState → ActionResult) : DroneState :=
  onKeyDown 0 keyT
    (bindKeyToScript keyT exScriptId
      (registerScript exScriptId (some [⟨some 0, some f0⟩, ⟨some 1000, some f1⟩])
        mkDroneControls))

lemma exState_active (f0 f1 : CtrlState → ActionResult) :
    (exState f0 f1).activeScripts = [⟨exScriptId, [⟨0, f0⟩, ⟨1000, f1⟩], 0, 0⟩] := rfl

/-- C1, corrected: on each update the engine executes, in registration
order, exactly the contiguous block of actions starting at the cursor whose
offsets are ≤ elapsed, stopping at the first not-yet-due action (so on an
unsorted list a due action listed after a not-yet-due one is NOT executed
that tick); the cursor advances by the block length (hence is monotonic and
never re-executes an action).  The worked example holds: after a KeyT
press at time 0, an update at 999ms executes only action 0, an update at
1000+k ms executes action 1 exactly once, and any later update executes
nothing. -/
theorem updateActiveScripts_timing :
    (∀ (sid : String) (elapsed : ℚ) (acts : List ScriptAction) (idx : ℕ)
        (core : CtrlState) (log : List String),
      (runDueActions sid elapsed acts idx core log).idx = idx + duePrefixLen elapsed acts ∧
      (runDueActions sid elapsed acts idx core log).executed
        = List.range' idx (duePrefixLen elapsed acts) ∧
      idx ≤ (runDueActions sid elapsed acts idx core log).idx) ∧
    (∀ (f0 f1 : CtrlState → ActionResult) (k : ℕ) (t : ℚ),
      (updateActiveScripts 999 (exState f0 f1)).2 = [(exScriptId, 0)] ∧
      (updateActiveScripts (1000 + (k : ℚ))
          (updateActiveScripts 999 (exState f0 f1)).1).2 = [(exScriptId, 1)] ∧
      (updateActiveScripts t
          (updateActiveScripts (1000 + (k : ℚ))
            (updateActiveScripts 999 (exState f0 f1)).1).1).2 = []) := by
  constructor
  · intro sid elapsed acts idx core log
    obtain ⟨h1, h2⟩ := runDueActions_spec sid elapsed acts idx core log
    exact ⟨h1, h2, by omega⟩
  · intro f0 f1 k t
    have h1 := exState_active f0 f1
    have e1 := updateActiveScripts_single 999 (exState f0 f1) _ h1
    have d1 : duePrefixLen (999 : ℚ) [(⟨0, f0⟩ : ScriptAction), ⟨1000, f1⟩] = 1 := by
      norm_num [duePrefixLen]
    have tr1 : (updateActiveScripts 999 (exState f0 f1)).2 = [(exScriptId, 0)] := by
      rw [e1.1]
      norm_num [d1]
    have h2 : (updateActiveScripts 999 (exState f0 f1)).1.activeScripts
        = [⟨exScriptId, [⟨0, f0⟩, ⟨1000, f1⟩], 0, 1⟩] := by
      rw [e1.2]
      norm_num [d1]
    have e2 := updateActiveScripts_single (1000 + (k : ℚ))
      (updateActiveScripts 999 (exState f0 f1)).1 _ h2
    have hk : (0 : ℚ) ≤ (k : ℚ) := Nat.cast_nonneg k
    have d2 : duePrefixLen (1000 + (k : ℚ)) [(⟨1000, f1⟩ : ScriptAction)] = 1 := by
      have hle : (1000 : ℚ) ≤ 1000 + (k : ℚ) := by linarith
      norm_num [duePrefixLen, hle]
    have tr2 : (updateActiveScripts (1000 + (k : ℚ))
        (updateActiveScripts 999 (exState f0 f1)).1).2 = [(exScriptId, 1)] := by
      rw [e2.1]
      norm_num [d2]
    have h3 : (updateActiveScripts (1000 + (k : ℚ))
        (updateActiveScripts 999 (exState f0 f1)).1).1.activeScripts = [] := by
      rw [e2.2]
      norm_num [d2]
    exact ⟨tr1, tr2, updateActiveScripts_empty t _ h3⟩

def okId : CtrlState → ActionResult := fun c => .ok c

def unsortedId : String := "unsorted"

/-- An action list whose offsets are not sorted: the first action is due at
1000ms, the second already at 0ms. -/
def unsortedActs : List ScriptAction := [⟨1000, okId⟩, ⟨0, okId⟩]

/-- The fresh state with one active instance of the unsorted script,
started at time 0. -/
def unsortedState : DroneState :=
  { mkDroneControls with activeScripts := [⟨unsortedId, unsortedActs, 0, 0⟩] }

unseal Rat.mul Rat.inv Rat.add Rat.sub in
/-- Counterexample for C1 as stated: at elapsed 500ms the action at index 1
has offset 0 ≤ 500 and the cursor (still 0) has not passed it, yet the
update executes nothing at all — the while loop stops at the not-yet-due
action at index 0.  So "every action whose recorded offset ≤ elapsed that
the cursor has not yet passed" is not executed on unsorted lists. -/
theorem updateActiveScripts_timing_cex :
    (List.getD unsortedActs 1 ⟨99, okId⟩).time ≤ 500 ∧
    (updateActiveScripts 500 unsortedState).2 = [] ∧
    (updateActiveScripts 500 unsortedState).1.activeScripts.map
      (fun i => i.nextActionIndex) = [0] := by
  decide

/-- The all-keys-released key table. -/
def noKeys : String → Bool := fun _ => false

/-- One no-input tick of the channel engine (gamepad disconnected, no key
held). -/
def noInputStep (c : CtrlState) : CtrlState := updateControlChannels none noKeys c

lemma noInputStep_channels (c : CtrlState) :
    (noInputStep c).channels =
      ⟨moveTowardsCenter c.channels.roll (-1) 1 (1/200),
       moveTowardsCenter c.channels.pitch (-1) 1 (1/200),
       moveTowardsCenter c.channels.yaw (-1) 1 (1/200),
       moveTowardsZero c.channels.throttle (1/200)⟩ := rfl

lemma mtc_of_nonneg {v : ℚ} (r : ℚ) (hv : 0 ≤ v) (hr : 0 ≤ r) :
    moveTowardsCenter v (-1) 1 r = max 0 (v - r) := by
  by_cases h : v > 0
  · unfold moveTowardsCenter
    rw [if_pos h]
  · have hv0 : v = 0 := le_antisymm (not_lt.mp h) hv
    unfold moveTowardsCenter
    rw [if_neg h, hv0, zero_add, zero_sub, min_eq_left hr,
      max_eq_left (neg_nonpos.mpr hr)]

lemma mtc_of_nonpos {v : ℚ} (r : ℚ) (hv : v ≤ 0) :
    moveTowardsCenter v (-1) 1 r = min 0 (v + r) := by
  unfold moveTowardsCenter
  rw [if_neg (not_lt.mpr hv)]

lemma mtcIter_nonneg (n : ℕ) {v : ℚ} (hv : 0 ≤ v) :
    (fun x => moveTowardsCenter x (-1) 1 (1/200))^[n] v
      = max 0 (v - n * (1/200)) := by
  induction n with
  | zero => simp [max_eq_right hv]
  | succ n ih =>
    rw [Function.iterate_succ_apply', ih]
    show moveTowardsCenter _ (-1) 1 (1/200) = _
    rw [mtc_of_nonneg (1/200) (le_max_left 0 _) (by norm_num)]
    rcases le_total (v - n * (1/200)) 0 with h | h
    · rw [max_eq_left h, max_eq_left (by norm_num),
        max_eq_left (by push_cast; linarith)]
    · rw [max_eq_right h]
      congr 1
      push_cast
      ring
lemma mtcIter_nonpos (n : ℕ) {v : ℚ} (hv : v ≤ 0) :
    (fun x => moveTowardsCenter x (-1) 1 (1/200))^[n] v
      = min 0 (v + n * (1/200)) := by
  induction n with
  | zero => simp [min_eq_right hv]
  | succ n ih =>
    rw [Function.iterate_succ_apply', ih]
    show moveTowardsCenter _ (-1) 1 (1/200) = _
    rw [mtc_of_nonpos (1/200) (min_le_left 0 _)]
    rcases le_total 0 (v + n * (1/200)) with h | h
    · rw [min_eq_left h, min_eq_left (by norm_num),
        min_eq_left (by push_cast; linarith)]
    · rw [min_eq_right h]
      congr 1
      push_cast
      ring
lemma mtzIter (n : ℕ) {v : ℚ} (hv : 0 ≤ v) :
    (fun x => moveTowardsZero x (1/200))^[n] v = max 0 (v - n * (1/200)) := by
  induction n with
  | zero => simp [max_eq_right hv]
  | succ n ih =>
    rw [Function.iterate_succ_apply', ih]
    show max 0 (max 0 (v - n * (1/200)) - 1/200) = _
    rcases le_total (v - n * (1/200)) 0 with h | h
    · rw [max_eq_left h, max_eq_left (by norm_num),
        max_eq_left (by push_cast; linarith)]
    · rw [max_eq_right h]
      congr 1
      push_cast
      ring
lemma noInputIter_channels (c : CtrlState) (n : ℕ) :
    (noInputStep^[n] c).channels.roll
        = (fun x => moveTowardsCenter x (-1) 1 (1/200))^[n] c.channels.roll ∧
    (noInputStep^[n] c).channels.pitch
        = (fun x => moveTowardsCenter x (-1) 1 (1/200))^[n] c.channels.pitch ∧
    (noInputStep^[n] c).channels.yaw
        = (fun x => moveTowardsCenter x (-1) 1 (1/200))^[n] c.channels.yaw ∧
    (noInputStep^[n] c).channels.throttle
        = (fun x => moveTowardsZero x (1/200))^[n] c.channels.throttle := by
  induction n with
  | zero => exact ⟨rfl, rfl, rfl, rfl⟩
  | succ n ih =>
    refine ⟨?_, ?_, ?_, ?_⟩ <;> rw [Function.iterate_succ_apply', Function.iterate_succ_apply']
    · show moveTowardsCenter ((noInputStep^[n] c).channels.roll) (-1) 1 (1/200) = _
      rw [ih.1]
    · show moveTowardsCenter ((noInputStep^[n] c).channels.pitch) (-1) 1 (1/200) = _
      rw [ih.2.1]
    · show moveTowardsCenter ((noInputStep^[n] c).channels.yaw) (-1) 1 (1/200) = _
      rw [ih.2.2.1]
    · show moveTowardsZero ((noInputStep^[n] c).channels.throttle) (1/200) = _
      rw [ih.2.2.2]

lemma yaw_centered (ks : String → Bool) (c : CtrlState)
    (hA : ks keyA = false) (hD : ks keyD = false) :
    (updateControlChannels none ks c).channels.yaw
      = moveTowardsCenter c.channels.yaw (-1) 1 (1/200) := by
  unfold updateControlChannels updateKeyboardControls centerUnusedControls
  simp [hA, hD]

lemma pitch_centered (ks : String → Bool) (c : CtrlState)
    (hR : ks arrowRight = false) (hL : ks arrowLeft = false) :
    (updateControlChannels none ks c).channels.pitch
      = moveTowardsCenter c.channels.pitch (-1) 1 (1/200) := by
  unfold updateControlChannels updateKeyboardControls centerUnusedControls
  simp [hR, hL]

lemma roll_centered (ks : String → Bool) (c : CtrlState)
    (hD : ks arrowDown = false) (hU : ks arrowUp = false) :
    (updateControlChannels none ks c).channels.roll
      = moveTowardsCenter c.channels.roll (-1) 1 (1/200) := by
  unfold updateControlChannels updateKeyboardControls centerUnusedControls
  simp [hD, hU]

lemma throttle_centered (ks : String → Bool) (c : CtrlState)
    (hW : ks keyW = false) (hX : ks keyX = false) :
    (updateControlChannels none ks c).channels.throttle
      = moveTowardsZero c.channels.throttle (1/200) := by
  unfold updateControlChannels updateKeyboardControls centerUnusedControls
  simp [hW, hX]

lemma mtc_step_props (v : ℚ) :
    |moveTowardsCenter v (-1) 1 (1/200)| ≤ |v| ∧
    |v - moveTowardsCenter v (-1) 1 (1/200)| ≤ 1/200 ∧
    (0 ≤ v → 0 ≤ moveTowardsCenter v (-1) 1 (1/200)) ∧
    (v ≤ 0 → moveTowardsCenter v (-1) 1 (1/200) ≤ 0) := by
  rcases le_total 0 v with hv | hv
  · rw [mtc_of_nonneg (1/200) hv (by norm_num)]
    have h1 : (0 : ℚ) ≤ max 0 (v - 1/200) := le_max_left _ _
    have h2 : max 0 (v - 1/200) ≤ v := max_le hv (by linarith)
    refine ⟨?_, ?_, fun _ => h1, fun h0 => ?_⟩
    · rw [abs_of_nonneg h1, abs_of_nonneg hv]
      exact h2
    · rw [abs_of_nonneg (by linarith)]
      rcases le_total (v - 1/200) 0 with h | h
      · rw [max_eq_left h]
        linarith
      · rw [max_eq_right h]
        linarith
    · have hv0 : v = 0 := le_antisymm h0 hv
      rw [hv0, zero_sub, max_eq_left (by norm_num)]
  · rw [mtc_of_nonpos (1/200) hv]
    have h1 : min 0 (v + 1/200) ≤ 0 := min_le_left _ _
    have h2 : v ≤ min 0 (v + 1/200) := le_min hv (by linarith)
    refine ⟨?_, ?_, fun h0 => ?_, fun _ => h1⟩
    · rw [abs_of_nonpos h1, abs_of_nonpos hv]
      linarith
    · rw [abs_of_nonpos (by linarith)]
      rcases le_total 0 (v + 1/200) with h | h
      · rw [min_eq_left h]
        linarith
      · rw [min_eq_right h]
        linarith
    · have hv0 : v = 0 := le_antisymm hv h0
      rw [hv0, zero_add, min_eq_left (by norm_num)]

lemma mtz_step_props {v : ℚ} (hv : 0 ≤ v) :
    moveTowardsZero v (1/200) ≤ v ∧ 0 ≤ moveTowardsZero v (1/200) ∧
    v - moveTowardsZero v (1/200) ≤ 1/200 := by
  unfold moveTowardsZero
  refine ⟨max_le hv (by linarith), le_max_left _ _, ?_⟩
  rcases le_total (v - 1/200) 0 with h | h
  · rw [max_eq_left h]
    linarith
  · rw [max_eq_right h]
    linarith

/-- C5: in keyboard mode, any axis whose keys are untouched in an update
moves toward its center 0 by at most the centering step 0.005 (= 1/200)
without overshooting (sign is preserved), whatever the other keys do; and
repeated no-input updates drive roll, pitch, yaw and throttle monotonically
to 0, reaching exactly 0 once n·0.005 covers the initial magnitude (the
update path ignores `deltaTime`, so this holds for every dt ≥ 0). -/
theorem centering_drives_channels_to_zero (ks : String → Bool) (c : CtrlState) (n : ℕ) :
    (ks keyA = false → ks keyD = false →
       |(updateControlChannels none ks c).channels.yaw| ≤ |c.channels.yaw| ∧
       |c.channels.yaw - (updateControlChannels none ks c).channels.yaw| ≤ 1/200 ∧
       (0 ≤ c.channels.yaw → 0 ≤ (updateControlChannels none ks c).channels.yaw) ∧
       (c.channels.yaw ≤ 0 → (updateControlChannels none ks c).channels.yaw ≤ 0)) ∧
    (ks arrowRight = false → ks arrowLeft = false →
       |(updateControlChannels none ks c).channels.pitch| ≤ |c.channels.pitch| ∧
       |c.channels.pitch - (updateControlChannels none ks c).channels.pitch| ≤ 1/200 ∧
       (0 ≤ c.channels.pitch → 0 ≤ (updateControlChannels none ks c).channels.pitch) ∧
       (c.channels.pitch ≤ 0 → (updateControlChannels none ks c).channels.pitch ≤ 0)) ∧
    (ks arrowDown = false → ks arrowUp = false →
       |(updateControlChannels none ks c).channels.roll| ≤ |c.channels.roll| ∧
       |c.channels.roll - (updateControlChannels none ks c).channels.roll| ≤ 1/200 ∧
       (0 ≤ c.channels.roll → 0 ≤ (updateControlChannels none ks c).channels.roll) ∧
       (c.channels.roll ≤ 0 → (updateControlChannels none ks c).channels.roll ≤ 0)) ∧
    (ks keyW = false → ks keyX = false → 0 ≤ c.channels.throttle →
       (updateControlChannels none ks c).channels.throttle ≤ c.channels.throttle ∧
       0 ≤ (updateControlChannels none ks c).channels.throttle ∧
       c.channels.throttle - (updateControlChannels none ks c).channels.throttle ≤ 1/200) ∧
    (|(noInputStep^[n + 1] c).channels.yaw| ≤ |(noInputStep^[n] c).channels.yaw| ∧
     |(noInputStep^[n + 1] c).channels.pitch| ≤ |(noInputStep^[n] c).channels.pitch| ∧
     |(noInputStep^[n + 1] c).channels.roll| ≤ |(noInputStep^[n] c).channels.roll| ∧
     (0 ≤ c.channels.throttle →
        (noInputStep^[n + 1] c).channels.throttle ≤ (noInputStep^[n] c).channels.throttle)) ∧
    ((|c.channels.yaw| ≤ n * (1/200) → (noInputStep^[n] c).channels.yaw = 0) ∧
     (|c.channels.pitch| ≤ n * (1/200) → (noInputStep^[n] c).channels.pitch = 0) ∧
     (|c.channels.roll| ≤ n * (1/200) → (noInputStep^[n] c).channels.roll = 0) ∧
     (0 ≤ c.channels.throttle → c.channels.throttle ≤ n * (1/200) →
        (noInputStep^[n] c).channels.throttle = 0)) := by
  refine ⟨?_, ?_, ?_, ?_, ⟨?_, ?_, ?_, ?_⟩, ⟨?_, ?_, ?_, ?_⟩⟩
  · intro h1 h2
    rw [yaw_centered ks c h1 h2]
    exact mtc_step_props c.channels.yaw
  · intro h1 h2
    rw [pitch_centered ks c h1 h2]
    exact mtc_step_props c.channels.pitch
  · intro h1 h2
    rw [roll_centered ks c h1 h2]
    exact mtc_step_props c.channels.roll
  · intro h1 h2 h0
    rw [throttle_centered ks c h1 h2]
    exact mtz_step_props h0
  · rw [Function.iterate_succ_apply']
    exact (mtc_step_props (noInputStep^[n] c).channels.yaw).1
  · rw [Function.iterate_succ_apply']
    exact (mtc_step_props (noInputStep^[n] c).channels.pitch).1
  · rw [Function.iterate_succ_apply']
    exact (mtc_step_props (noInputStep^[n] c).channels.roll).1
  · intro h0
    have hnn : 0 ≤ (noInputStep^[n] c).channels.throttle := by
      rw [(noInputIter_channels c n).2.2.2, mtzIter n h0]
      exact le_max_left _ _
    rw [Function.iterate_succ_apply']
    exact (mtz_step_props hnn).1
  · intro h
    rw [(noInputIter_channels c n).2.2.1]
    rcases le_total 0 c.channels.yaw with hv | hv
    · rw [abs_of_nonneg hv] at h
      rw [mtcIter_nonneg n hv, max_eq_left (by linarith)]
    · rw [abs_of_nonpos hv] at h
      rw [mtcIter_nonpos n hv, min_eq_left (by linarith)]
  · intro h
    rw [(noInputIter_channels c n).2.1]
    rcases le_total 0 c.channels.pitch with hv | hv
    · rw [abs_of_nonneg hv] at h
      rw [mtcIter_nonneg n hv, max_eq_left (by linarith)]
    · rw [abs_of_nonpos hv] at h
      rw [mtcIter_nonpos n hv, min_eq_left (by linarith)]
  · intro h
    rw [(noInputIter_channels c n).1]
    rcases le_total 0 c.channels.roll with hv | hv
    · rw [abs_of_nonneg hv] at h
      rw [mtcIter_nonneg n hv, max_eq_left (by linarith)]
    · rw [abs_of_nonpos hv] at h
      rw [mtcIter_nonpos n hv, min_eq_left (by linarith)]
  · intro h0 h
    rw [(noInputIter_channels c n).2.2.2, mtzIter n h0, max_eq_left (by linarith)]

/-- Concrete start state for the C5 witness. -/
def cWit : CtrlState := ⟨⟨1/2, -1/2, 1/4, 3/4⟩, ⟨49/80, 49/80, 49/80, 49/80⟩⟩

unseal Rat.mul Rat.inv Rat.add Rat.sub in
/-- Witness for C5: with no key pressed, from roll 1/2, pitch -1/2, yaw 1/4,
throttle 3/4, one tick shrinks the yaw magnitude and 200 no-input ticks
(200·0.005 = 1) drive all four channels exactly to 0. -/
theorem centering_drives_channels_to_zero_witness :
    noKeys keyA = false ∧ noKeys keyD = false ∧ noKeys arrowRight = false ∧
    noKeys arrowLeft = false ∧ noKeys arrowDown = false ∧ noKeys arrowUp = false ∧
    noKeys keyW = false ∧ noKeys keyX = false ∧
    (0 : ℚ) ≤ cWit.channels.throttle ∧
    |cWit.channels.yaw| ≤ ((200 : ℕ) : ℚ) * (1/200) ∧
    |cWit.channels.pitch| ≤ ((200 : ℕ) : ℚ) * (1/200) ∧
    |cWit.channels.roll| ≤ ((200 : ℕ) : ℚ) * (1/200) ∧
    cWit.channels.throttle ≤ ((200 : ℕ) : ℚ) * (1/200) ∧
    (|(updateControlChannels none noKeys cWit).channels.yaw| ≤ |cWit.channels.yaw| ∧
     0 ≤ (updateControlChannels none noKeys cWit).channels.yaw ∧
     (updateControlChannels none noKeys cWit).channels.throttle ≤ cWit.channels.throttle ∧
     (noInputStep^[200] cWit).channels.yaw = 0 ∧
     (noInputStep^[200] cWit).channels.pitch = 0 ∧
     (noInputStep^[200] cWit).channels.roll = 0 ∧
     (noInputStep^[200] cWit).channels.throttle = 0) := by
  obtain ⟨hy, hp, hr, ht, _hmono, hconv⟩ :=
    centering_drives_channels_to_zero noKeys cWit 200
  refine ⟨rfl, rfl, rfl, rfl, rfl, rfl, rfl, rfl,
    by decide, by decide, by decide, by decide, by decide,
    (hy rfl rfl).1, (hy rfl rfl).2.2.1 (by decide), (ht rfl rfl (by decide)).1,
    hconv.1 (by decide), hconv.2.1 (by decide), hconv.2.2.1 (by decide),
    hconv.2.2.2 (by decide) (by decide)⟩

lemma clampValue_bounds {mn mx : ℚ} (v : ℚ) (h : mn ≤ mx) :
    mn ≤ clampValue v mn mx ∧ clampValue v mn mx ≤ mx :=
  ⟨le_max_left _ _, max_le h (min_le_left _ _)⟩

lemma ite_bounds {p : Prop} [Decidable p] {a b lo hi : ℚ}
    (ha : lo ≤ a ∧ a ≤ hi) (hb : lo ≤ b ∧ b ≤ hi) :
    lo ≤ (if p then a else b) ∧ (if p then a else b) ≤ hi := by
  split_ifs with h
  · exact ha
  · exact hb

lemma mtc_mem_pm1 {v : ℚ} (h : -1 ≤ v ∧ v ≤ 1) :
    -1 ≤ moveTowardsCenter v (-1) 1 (1/200) ∧ moveTowardsCenter v (-1) 1 (1/200) ≤ 1 := by
  have habs : |moveTowardsCenter v (-1) 1 (1/200)| ≤ |v| := (mtc_step_props v).1
  have hv : |v| ≤ 1 := abs_le.mpr h
  exact abs_le.mp (le_trans habs hv)

lemma mtz_mem_01 {v : ℚ} (h : 0 ≤ v ∧ v ≤ 1) :
    0 ≤ moveTowardsZero v (1/200) ∧ moveTowardsZero v (1/200) ≤ 1 := by
  unfold moveTowardsZero
  exact ⟨le_max_left _ _, max_le (by norm_num) (by linarith [h.2])⟩

lemma inBounds_center (ks : String → Bool) {c : CtrlState} (h : inBounds c) :
    inBounds (centerUnusedControls ks c) := by
  obtain ⟨h1, h2, h3, h4, h5, h6, h7, h8, h9, h10, h11, h12, h13, h14, h15, h16⟩ := h
  unfold centerUnusedControls
  refine ⟨?_, ?_, ?_, ?_, ?_, ?_, ?_, ?_, h9, h10, h11, h12, h13, h14, h15, h16⟩
  · exact (ite_bounds (mtc_mem_pm1 ⟨h1, h2⟩) ⟨h1, h2⟩).1
  · exact (ite_bounds (mtc_mem_pm1 ⟨h1, h2⟩) ⟨h1, h2⟩).2
  · exact (ite_bounds (mtc_mem_pm1 ⟨h3, h4⟩) ⟨h3, h4⟩).1
  · exact (ite_bounds (mtc_mem_pm1 ⟨h3, h4⟩) ⟨h3, h4⟩).2
  · exact (ite_bounds (mtc_mem_pm1 ⟨h5, h6⟩) ⟨h5, h6⟩).1
  · exact (ite_bounds (mtc_mem_pm1 ⟨h5, h6⟩) ⟨h5, h6⟩).2
  · exact (ite_bounds (mtz_mem_01 ⟨h7, h8⟩) ⟨h7, h8⟩).1
  · exact (ite_bounds (mtz_mem_01 ⟨h7, h8⟩) ⟨h7, h8⟩).2

lemma inBounds_updateKeyboardControls (ks : String → Bool) {c : CtrlState}
    (h : inBounds c) : inBounds (updateKeyboardControls ks c) := by
  obtain ⟨h1, h2, h3, h4, h5, h6, h7, h8, h9, h10, h11, h12, h13, h14, h15, h16⟩ := h
  unfold updateKeyboardControls
  apply inBounds_center
  refine ⟨?_, ?_, ?_, ?_, ?_, ?_, ?_, ?_, ?_, ?_, ?_, ?_, ?_, ?_, ?_, ?_⟩
  · exact (ite_bounds (clampValue_bounds _ (by norm_num))
      (ite_bounds (clampValue_bounds _ (by norm_num)) ⟨h1, h2⟩)).1
  · exact (ite_bounds (clampValue_bounds _ (by norm_num))
      (ite_bounds (clampValue_bounds _ (by norm_num)) ⟨h1, h2⟩)).2
  · exact (ite_bounds (clampValue_bounds _ (by norm_num))
      (ite_bounds (clampValue_bounds _ (by norm_num)) ⟨h3, h4⟩)).1
  · exact (ite_bounds (clampValue_bounds _ (by norm_num))
      (ite_bounds (clampValue_bounds _ (by norm_num)) ⟨h3, h4⟩)).2
  · exact (ite_bounds (clampValue_bounds _ (by norm_num))
      (ite_bounds (clampValue_bounds _ (by norm_num)) ⟨h5, h6⟩)).1
  · exact (ite_bounds (clampValue_bounds _ (by norm_num))
      (ite_bounds (clampValue_bounds _ (by norm_num)) ⟨h5, h6⟩)).2
  · exact (ite_bounds (clampValue_bounds _ (by norm_num))
      (ite_bounds (clampValue_bounds _ (by norm_num)) ⟨h7, h8⟩)).1
  · exact (ite_bounds (clampValue_bounds _ (by norm_num))
      (ite_bounds (clampValue_bounds _ (by norm_num)) ⟨h7, h8⟩)).2
  · exact (ite_bounds (clampValue_bounds _ (by norm_num))
      (clampValue_bounds _ (by norm_num))).1
  · exact (ite_bounds (clampValue_bounds _ (by norm_num))
      (clampValue_bounds _ (by norm_num))).2
  · exact (ite_bounds (clampValue_bounds _ (by norm_num))
      (clampValue_bounds _ (by norm_num))).1
  · exact (ite_bounds (clampValue_bounds _ (by norm_num))
      (clampValue_bounds _ (by norm_num))).2
  · exact (ite_bounds (clampValue_bounds _ (by norm_num))
      (clampValue_bounds _ (by norm_num))).1
  · exact (ite_bounds (clampValue_bounds _ (by norm_num))
      (clampValue_bounds _ (by norm_num))).2
  · exact (ite_bounds (clampValue_bounds _ (by norm_num))
      (clampValue_bounds _ (by norm_num))).1
  · exact (ite_bounds (clampValue_bounds _ (by norm_num))
      (clampValue_bounds _ (by norm_num))).2

lemma inBounds_updateControlChannels (pad : Option GamepadAxes) (ks : String → Bool)
    {c : CtrlState} (h : inBounds c) : inBounds (updateControlChannels pad ks c) := by
  cases pad with
  | none => exact inBounds_updateKeyboardControls ks h
  | some axes =>
    obtain ⟨_, _, _, _, _, _, _, _, h9, h10, h11, h12, h13, h14, h15, h16⟩ := h
    exact ⟨(clampValue_bounds _ (by norm_num)).1, (clampValue_bounds _ (by norm_num)).2,
      (clampValue_bounds _ (by norm_num)).1, (clampValue_bounds _ (by norm_num)).2,
      (clampValue_bounds _ (by norm_num)).1, (clampValue_bounds _ (by norm_num)).2,
      (clampValue_bounds _ (by norm_num)).1, (clampValue_bounds _ (by norm_num)).2,
      h9, h10, h11, h12, h13, h14, h15, h16⟩

lemma inBounds_runDueActions (sid : String) (elapsed : ℚ) :
    ∀ (acts : List ScriptAction) (idx : ℕ) (core : CtrlState) (log : List String),
      (∀ a ∈ acts, preservesBounds a.run) → inBounds core →
      inBounds (runDueActions sid elapsed acts idx core log).core := by
  intro acts
  induction acts with
  | nil => intro idx core log _ h; exact h
  | cons a rest ih =>
    intro idx core log hall h
    unfold runDueActions
    by_cases hd : a.time ≤ elapsed
    · rw [if_pos hd]
      have hstep : inBounds (a.run core).state :=
        hall a (List.mem_cons_self a rest) core h
      cases hr : a.run core with
      | ok c2 =>
        rw [hr] at hstep
        exact ih (idx + 1) c2 log (fun a' ha' => hall a' (List.mem_cons_of_mem a ha')) hstep
      | err c2 =>
        rw [hr] at hstep
        exact ih (idx + 1) c2 (actionErrMsg sid idx :: log)
          (fun a' ha' => hall a' (List.mem_cons_of_mem a ha')) hstep
    · rw [if_neg hd]
      exact h

lemma inBounds_updateActiveScriptsAux (now : ℚ) :
    ∀ (insts : List ScriptInstance) (core : CtrlState) (log : List String),
      (∀ inst ∈ insts, ∀ a ∈ inst.actions, preservesBounds a.run) → inBounds core →
      inBounds (updateActiveScriptsAux now insts core log).1 := by
  intro insts
  induction insts with
  | nil => intro core log _ h; exact h
  | cons inst rest ih =>
    intro core log hall h
    unfold updateActiveScriptsAux
    exact ih _ _
      (fun i hi a ha => hall i (List.mem_cons_of_mem inst hi) a ha)
      (inBounds_runDueActions inst.id (now - inst.startTime)
        (inst.actions.drop inst.nextActionIndex) inst.nextActionIndex core log
        (fun a ha => hall inst (List.mem_cons_self inst rest) a (List.mem_of_mem_drop ha)) h)

lemma survivors_actions (now : ℚ) :
    ∀ (insts : List ScriptInstance) (core : CtrlState) (log : List String)
      (inst' : ScriptInstance),
      inst' ∈ (updateActiveScriptsAux now insts core log).2.2.1 →
      ∃ inst ∈ insts, inst'.actions = inst.actions := by
  intro insts
  induction insts with
  | nil => intro core log inst' h'; simp [updateActiveScriptsAux] at h'
  | cons inst rest ih =>
    intro core log inst' h'
    unfold updateActiveScriptsAux at h'
    rcases List.mem_append.mp h' with hL | hR
    · unfold processInstance at hL
      dsimp only at hL
      split_ifs at hL with hc
      · simp only [Option.toList_some, List.mem_singleton] at hL
        exact ⟨inst, List.mem_cons_self inst rest, by rw [hL]⟩
      · simp at hL
    · obtain ⟨i, hi, hact⟩ := ih _ _ _ hR
      exact ⟨i, List.mem_cons_of_mem inst hi, hact⟩

lemma assocLookup_mem {α : Type} (k : String) :
    ∀ (l : List (String × α)) {v : α}, assocLookup k l = some v → (k, v) ∈ l := by
  intro l
  induction l with
  | nil => intro v h; simp [assocLookup] at h
  | cons p rest ih =>
    intro v h
    unfold assocLookup at h
    by_cases hk : k = p.1
    · rw [if_pos hk] at h
      have hv : p.2 = v := Option.some.inj h
      rw [hk, ← hv, Prod.mk.eta]
      exact List.mem_cons_self p rest
    · rw [if_neg hk] at h
      exact List.mem_cons_of_mem p (ih h)

lemma stepEvent_preserves (e : InputEvent) (s : DroneState)
    (hg : GoodScripts s) (hb : inBounds s.core) :
    GoodScripts (stepEvent e s) ∧ inBounds (stepEvent e s).core := by
  cases e with
  | keyDown now key =>
    show GoodScripts (onKeyDown now key s) ∧ inBounds (onKeyDown now key s).core
    unfold onKeyDown
    cases hlk : assocLookup key s.scriptBindings with
    | none => exact ⟨hg, hb⟩
    | some sid =>
      dsimp only
      by_cases he : sid = ""
      · rw [if_pos he]
        exact ⟨hg, hb⟩
      · rw [if_neg he]
        unfold executeScript
        cases hsc : assocLookup sid s.scripts with
        | none => exact ⟨hg, hb⟩
        | some script =>
          refine ⟨⟨hg.1, ?_⟩, hb⟩
          intro inst hinst a ha
          rcases List.mem_append.mp hinst with hold | hnew
          · exact hg.2 inst hold a ha
          · have hinst' : inst = ⟨sid, script, now, 0⟩ := by simpa using hnew
            refine hg.1 (sid, script) (assocLookup_mem sid s.scripts hsc) a ?_
            rw [hinst'] at ha
            exact ha
  | keyUp key =>
    show GoodScripts (onKeyUp key s) ∧ inBounds (onKeyUp key s).core
    unfold onKeyUp
    cases hlk : assocLookup key s.scriptBindings with
    | none => exact ⟨hg, hb⟩
    | some sid =>
      dsimp only
      by_cases he : sid = ""
      · rw [if_pos he]
        exact ⟨hg, hb⟩
      · rw [if_neg he]
        exact ⟨hg, hb⟩
  | frame now dt pad =>
    show GoodScripts (update now dt pad s) ∧ inBounds (update now dt pad s).core
    unfold update updateActiveScripts
    dsimp only
    constructor
    · refine ⟨hg.1, ?_⟩
      intro inst' h' a ha
      obtain ⟨inst, hin, hact⟩ := survivors_actions now s.activeScripts
        (updateControlChannels pad s.keyStates s.core) s.log inst' h'
      refine hg.2 inst hin a ?_
      rw [← hact]
      exact ha
    · exact inBounds_updateActiveScriptsAux now s.activeScripts
        (updateControlChannels pad s.keyStates s.core) s.log hg.2
        (inBounds_updateControlChannels pad s.keyStates hb)

lemma runEvents_preserves :
    ∀ (evs : List InputEvent) (s : DroneState),
      GoodScripts s → inBounds s.core →
      GoodScripts (runEvents evs s) ∧ inBounds (runEvents evs s).core := by
  intro evs
  induction evs with
  | nil => intro s hg hb; exact ⟨hg, hb⟩
  | cons e rest ih =>
    intro s hg hb
    obtain ⟨hg', hb'⟩ := stepEvent_preserves e s hg hb
    exact ih (stepEvent e s) hg' hb'

/-- C2, corrected: after any sequence of keyboard, gamepad and frame-update
events, if every script action reachable by the engine (registered scripts
and already-active instances) maps in-range control states to in-range
control states, then roll, pitch, yaw stay in [-1, 1] and throttle and the
four motor thrusts stay in [0, 1].  Without that restriction the invariant
is false: a mutation callback is arbitrary and is applied unclamped. -/
theorem channels_motors_stay_in_bounds (evs : List InputEvent) (s : DroneState)
    (hg : GoodScripts s) (hb : inBounds s.core) :
    inBounds (runEvents evs s).core :=
  (runEvents_preserves evs s hg hb).2

lemma setRoll_preserves (q : ℚ) (hq1 : -1 ≤ q) (hq2 : q ≤ 1) :
    preservesBounds (fun c => .ok { c with channels := { c.channels with roll := q } }) := by
  intro c hc
  obtain ⟨_, _, h3, h4, h5, h6, h7, h8, h9, h10, h11, h12, h13, h14, h15, h16⟩ := hc
  exact ⟨hq1, hq2, h3, h4, h5, h6, h7, h8, h9, h10, h11, h12, h13, h14, h15, h16⟩

lemma setPitch_preserves (q : ℚ) (hq1 : -1 ≤ q) (hq2 : q ≤ 1) :
    preservesBounds (fun c => .ok { c with channels := { c.channels with pitch := q } }) := by
  intro c hc
  obtain ⟨h1, h2, _, _, h5, h6, h7, h8, h9, h10, h11, h12, h13, h14, h15, h16⟩ := hc
  exact ⟨h1, h2, hq1, hq2, h5, h6, h7, h8, h9, h10, h11, h12, h13, h14, h15, h16⟩

lemma setYaw_preserves (q : ℚ) (hq1 : -1 ≤ q) (hq2 : q ≤ 1) :
    preservesBounds (fun c => .ok { c with channels := { c.channels with yaw := q } }) := by
  intro c hc
  obtain ⟨h1, h2, h3, h4, _, _, h7, h8, h9, h10, h11, h12, h13, h14, h15, h16⟩ := hc
  exact ⟨h1, h2, h3, h4, hq1, hq2, h7, h8, h9, h10, h11, h12, h13, h14, h15, h16⟩

lemma setThrottle_preserves (q : ℚ) (hq1 : 0 ≤ q) (hq2 : q ≤ 1) :
    preservesBounds (fun c => .ok { c with channels := { c.channels with throttle := q } }) := by
  intro c hc
  obtain ⟨h1, h2, h3, h4, h5, h6, _, _, h9, h10, h11, h12, h13, h14, h15, h16⟩ := hc
  exact ⟨h1, h2, h3, h4, h5, h6, hq1, hq2, h9, h10, h11, h12, h13, h14, h15, h16⟩

/-- The two default scripts only write in-range constants, and the fresh
state has no active instance. -/
lemma goodScripts_mk : GoodScripts mkDroneControls := by
  constructor
  · intro p hp a ha
    have hsc : mkDroneControls.scripts =
        [(yawSpinId,
          [⟨0, fun c => .ok { c with channels := { c.channels with yaw := 1/5 } }⟩,
           ⟨5000, fun c => .ok { c with channels := { c.channels with yaw := 0 } }⟩]),
         (hoverId,
          [⟨0, fun c => .ok { c with channels := { c.channels with throttle := 1/2 } }⟩,
           ⟨1000, fun c => .ok { c with channels := { c.channels with roll := 0 } }⟩,
           ⟨1000, fun c => .ok { c with channels := { c.channels with pitch := 0 } }⟩,
           ⟨1000, fun c => .ok { c with channels := { c.channels with yaw := 0 } }⟩])] := rfl
    rw [hsc] at hp
    simp only [List.mem_cons, List.not_mem_nil, or_false] at hp
    rcases hp with rfl | rfl
    · simp only [List.mem_cons, List.not_mem_nil, or_false] at ha
      rcases ha with rfl | rfl
      · exact setYaw_preserves (1/5) (by norm_num) (by norm_num)
      · exact setYaw_preserves 0 (by norm_num) (by norm_num)
    · simp only [List.mem_cons, List.not_mem_nil, or_false] at ha
      rcases ha with rfl | rfl | rfl | rfl
      · exact setThrottle_preserves (1/2) (by norm_num) (by norm_num)
      · exact setRoll_preserves 0 (by norm_num) (by norm_num)
      · exact setPitch_preserves 0 (by norm_num) (by norm_num)
      · exact setYaw_preserves 0 (by norm_num) (by norm_num)
  · intro inst hinst
    have : mkDroneControls.activeScripts = [] := rfl
    rw [this] at hinst
    simp at hinst

/-- A KeyS press (starting the hover script) followed by a frame update. -/
def witnessEvents : List InputEvent := [.keyDown 0 keyS, .frame 100 16 none]

unseal Rat.mul Rat.inv Rat.add Rat.sub in
/-- Witness for C2: the fresh state, whose default scripts all preserve the
documented ranges, stays in range after a KeyS press and an update that
fires the hover script. -/
theorem channels_motors_stay_in_bounds_witness :
    GoodScripts mkDroneControls ∧ inBounds mkDroneControls.core ∧
    inBounds (runEvents witnessEvents mkDroneControls).core :=
  ⟨goodScripts_mk, by decide,
   channels_motors_stay_in_bounds witnessEvents mkDroneControls goodScripts_mk (by decide)⟩

/-- A registered mutation callback that writes roll = 2, out of range. -/
def badRollAction : CtrlState → ActionResult :=
  fun c => .ok { c with channels := { c.channels with roll := 2 } }

/-- The fresh state with `badScript` registered and bound to KeyB. -/
def badBase : DroneState :=
  bindKeyToScript keyB badId
    (registerScript badId (some [⟨some 0, some badRollAction⟩]) mkDroneControls)

/-- KeyB press then a frame update. -/
def badEvents : List InputEvent := [.keyDown 0 keyB, .frame 5 16 none]

unseal Rat.mul Rat.inv Rat.add Rat.sub in
/-- Counterexample for C2 as stated: a script-triggered mutation is applied
unclamped, so after pressing the bound key and one update the roll channel
is 2, outside [-1, 1], although the state started in range. -/
theorem channels_motors_stay_in_bounds_cex :
    inBounds badBase.core ∧
    (runEvents badEvents badBase).core.channels.roll = 2 ∧
    ¬ inBounds (runEvents badEvents badBase).core := by
  refine ⟨by decide, by decide, ?_⟩
  intro h
  have := h.2.1
  rw [(by decide : (runEvents badEvents badBase).core.channels.roll = 2)] at this
  norm_num at this
